import Mathlib

/-!
Verification of `compute_manager.py`: a shallow embedding of the
configuration loader (`ComputeResource.__init__`), the lifecycle request
builders (`ComputeResource.create`, `ComputeResource.delete`), and the
operation wait loop (`wait_for_operation`), together with theorems
settling the specification's claims about them.
-/

namespace ComputeManager

/-- A YAML scalar as `yaml.safe_load` can deliver it for a config key:
either an explicit `null` (Python `None`) or a string scalar. The three
config keys of this program are strings in well-formed configs, but YAML
permits `null`, and the Python code stores `info[key]` unchecked. -/
inductive YamlValue where
  | null
  | str (s : String)
deriving DecidableEq, Repr

/-- Python string interpolation of a value: `str(None)` is `"None"`. -/
def YamlValue.toStr : YamlValue → String
  | .null => "None"
  | .str s => s

/-- A parsed YAML mapping (the result of `yaml.safe_load` on a config
file), as an association list from keys to values. -/
def YamlDoc := List (String × YamlValue)

/-- The error events the Python code can raise on the paths modelled
here, named after the spec's taxonomy:
`ConfigNotFound` is the logged-and-reraised `FileNotFoundError`;
`KeyError` is Python's `KeyError` on a missing config key;
`ImageNotFound` is the provider error propagating out of the image
lookup in `create`;
`OperationFailed` is the `raise Exception(result['error'])` in
`wait_for_operation`, carrying the provider's error payload. -/
inductive CmError where
  | ConfigNotFound (path : String)
  | KeyError (key : String)
  | ImageNotFound (detail : String)
  | OperationFailed (payload : String)
deriving DecidableEq, Repr

/-- `configs/{instance_name}/config.yml`, the path opened by
`ComputeResource.__init__`. -/
def configPath (instance_name : String) : String :=
  "configs/" ++ instance_name ++ "/config.yml"

/-- Python dict subscript `info[key]`: the value when the key is
present, a `KeyError` otherwise. A present key's value is returned
as-is, including `null`. -/
def dictGet (info : YamlDoc) (key : String) : Except CmError YamlValue :=
  match info.lookup key with
  | some v => .ok v
  | none => .error (.KeyError key)

/-- The `ComputeResource` object after a successful `__init__`: the
three fields read from the config file plus the three caller-supplied
identity fields. -/
structure ComputeResource where
  instance_family : YamlValue
  instance_project : YamlValue
  machine_type : YamlValue
  instance_name : String
  project : String
  zone : String
deriving DecidableEq, Repr

/-- `ComputeResource.__init__`: open `configs/{instance_name}/config.yml`
through the filesystem `fs` (absent file raises `FileNotFoundError`,
logged with the path and reraised), then populate the attributes from
the parsed mapping; a missing key raises `KeyError`. -/
def mkComputeResource (fs : String → Option YamlDoc)
    (instance_name project zone : String) : Except CmError ComputeResource :=
  match fs (configPath instance_name) with
  | none => .error (.ConfigNotFound (configPath instance_name))
  | some info => do
    let fam ← dictGet info "instance_family"
    let proj ← dictGet info "instance_project"
    let mt ← dictGet info "machine_type"
    .ok { instance_family := fam, instance_project := proj, machine_type := mt,
          instance_name := instance_name, project := project, zone := zone }

/-- The spec's notion of a fully populated descriptor: the three
config-derived fields are present and non-null (the three identity
fields are strings by construction). -/
def fullyPopulated (d : ComputeResource) : Prop :=
  d.instance_family ≠ .null ∧ d.instance_project ≠ .null ∧ d.machine_type ≠ .null

instance (d : ComputeResource) : Decidable (fullyPopulated d) := by
  unfold fullyPopulated; infer_instance

/-- The provider's response to `images().getFromFamily(...)`: the field
`create` reads from it. -/
structure Image where
  selfLink : String
deriving DecidableEq, Repr

/-- One entry of `accessConfigs` in the create request body. -/
structure AccessConfig where
  type : String
  name : String
deriving DecidableEq, Repr

/-- One entry of `networkInterfaces` in the create request body. -/
structure NetworkInterface where
  network : String
  accessConfigs : List AccessConfig
deriving DecidableEq, Repr

/-- `initializeParams` of a disk in the create request body. -/
structure InitializeParams where
  sourceImage : String
deriving DecidableEq, Repr

/-- One entry of `disks` in the create request body. -/
structure AttachedDisk where
  boot : Bool
  autoDelete : Bool
  initializeParams : InitializeParams
deriving DecidableEq, Repr

/-- One entry of `serviceAccounts` in the create request body. -/
structure ServiceAccount where
  email : String
  scopes : List String
deriving DecidableEq, Repr

/-- The `config` dict built by `ComputeResource.create` and submitted
as the body of `instances().insert`. -/
structure InstanceConfig where
  name : String
  machineType : String
  disks : List AttachedDisk
  networkInterfaces : List NetworkInterface
  serviceAccounts : List ServiceAccount
deriving DecidableEq, Repr

/-- The full `instances().insert(project=..., zone=..., body=...)`
request submitted by `create`. -/
structure InsertCall where
  project : String
  zone : String
  body : InstanceConfig
deriving DecidableEq, Repr

/-- The `instances().delete(project=..., zone=..., instance=...)`
request submitted by `delete`; the keyword argument `instance` is
rendered as `instance_`. -/
structure DeleteCall where
  project : String
  zone : String
  instance_ : String
deriving DecidableEq, Repr

/-- `ComputeResource.create`: resolve the boot image for
`(instance_project, instance_family)` through the provider's
`images().getFromFamily` (modelled by `imageLookup`; its error
propagates unmodified, in which case no insert request exists), then
build the request body and submit `instances().insert`. -/
def ComputeResource.create (d : ComputeResource)
    (imageLookup : YamlValue → YamlValue → Except CmError Image) :
    Except CmError InsertCall :=
  match imageLookup d.instance_project d.instance_family with
  | .error e => .error e
  | .ok image_response =>
    .ok { project := d.project, zone := d.zone,
          body :=
            { name := d.instance_name,
              machineType :=
                "zones/" ++ d.zone ++ "/machineTypes/" ++ d.machine_type.toStr,
              disks :=
                [{ boot := true, autoDelete := true,
                   initializeParams := { sourceImage := image_response.selfLink } }],
              networkInterfaces :=
                [{ network := "global/networks/default",
                   accessConfigs :=
                     [{ type := "ONE_TO_ONE_NAT", name := "External NAT" }] }],
              serviceAccounts :=
                [{ email := "default",
                   scopes :=
                     ["https://www.googleapis.com/auth/devstorage.read_write",
                      "https://www.googleapis.com/auth/logging.write"] }] } }

/-- `ComputeResource.delete`: submit `instances().delete` for this
descriptor's project, zone and instance name. -/
def ComputeResource.delete (d : ComputeResource) : DeleteCall :=
  { project := d.project, zone := d.zone, instance_ := d.instance_name }

/-- One response of `zoneOperations().get(...).execute()`: its
`'status'` string and optional `'error'` payload (`'error' in result`). -/
structure OpResult where
  status : String
  error : Option String
deriving DecidableEq, Repr

/-- How one round of `wait_for_operation` ends when `result['status']`
is `'DONE'`: `success result` for `return result`, `operationFailed e`
for `raise Exception(result['error'])`. -/
inductive WaitOutcome where
  | success (result : OpResult)
  | operationFailed (payload : String)
deriving DecidableEq, Repr

/-- `wait_for_operation`, run against the finite sequence `polls` of
responses the provider would report on successive status queries. The
loop consumes one response per iteration; on the first `'DONE'` it
raises `operationFailed result['error']` if an error payload is
attached, otherwise returns `success result`. `some (n, out)` means the
loop terminated after exactly `n` status queries with outcome `out`;
`none` means the loop was still polling after consuming every response
in `polls` (the real loop has no timeout and would keep querying). -/
def waitTrace : List OpResult → Option (Nat × WaitOutcome)
  | [] => none
  | result :: rest =>
    if result.status = "DONE" then
      match result.error with
      | some e => some (1, .operationFailed e)
      | none => some (1, .success result)
    else
      match waitTrace rest with
      | some (n, out) => some (n + 1, out)
      | none => none

end ComputeManager

namespace ComputeManager

/-! ## Helper lemmas -/

/-- The wait loop always performs at least one status query before
terminating. -/
theorem waitTrace_pos (polls : List OpResult) (n : Nat) (out : WaitOutcome)
    (h : waitTrace polls = some (n, out)) : 0 < n := by
  induction polls generalizing n out with
  | nil => simp [waitTrace] at h
  | cons r rest ih =>
    rw [waitTrace] at h
    by_cases hr : r.status = "DONE"
    · rw [if_pos hr] at h
      cases he : r.error with
      | some e => rw [he] at h; cases h; exact Nat.one_pos
      | none => rw [he] at h; cases h; exact Nat.one_pos
    · rw [if_neg hr] at h
      cases hw : waitTrace rest with
      | none => rw [hw] at h; cases h
      | some p =>
        rw [hw] at h
        cases h
        exact Nat.succ_pos _

/-- Status queries issued over a run of non-terminal responses compose:
the loop consumes each non-`DONE` response with one query and continues
into the remainder unchanged. -/
theorem waitTrace_append_nonterminal (pre rest : List OpResult)
    (h : ∀ r ∈ pre, r.status ≠ "DONE") :
    waitTrace (pre ++ rest) =
      (waitTrace rest).map (fun p => (pre.length + p.1, p.2)) := by
  induction pre with
  | nil =>
    cases hw : waitTrace rest with
    | none => simp [hw]
    | some p => simp [hw]
  | cons r pre ih =>
    have hr : r.status ≠ "DONE" := h r (List.mem_cons_self r pre)
    have h' : ∀ x ∈ pre, x.status ≠ "DONE" := fun x hx => h x (List.mem_cons_of_mem r hx)
    rw [List.cons_append, waitTrace, if_neg hr, ih h']
    cases hw : waitTrace rest with
    | none => simp
    | some p =>
      simp only [Option.map_some', List.length_cons, Option.some.injEq, Prod.mk.injEq]
      exact ⟨by omega, trivial⟩

/-! ## Claim theorems: wait loop -/

/-- C1: if the provider reports the polled statuses
`[RUNNING, RUNNING, DONE]` with no error payload on the terminal
response, then `wait_for_operation` performs exactly three status
queries and returns the third (terminal) result as success. -/
theorem wait_three_polls_success (r1 r2 r3 : OpResult)
    (h1 : r1.status = "RUNNING") (h2 : r2.status = "RUNNING")
    (h3 : r3.status = "DONE") (h3e : r3.error = none) :
    waitTrace [r1, r2, r3] = some (3, .success r3) := by
  rw [waitTrace, if_neg (by rw [h1]; decide), waitTrace, if_neg (by rw [h2]; decide),
    waitTrace, if_pos h3, h3e]

/-- Witness for C1 at a concrete poll sequence. -/
theorem wait_three_polls_success_witness :
    waitTrace [⟨"RUNNING", none⟩, ⟨"RUNNING", none⟩, ⟨"DONE", none⟩]
      = some (3, .success ⟨"DONE", none⟩) :=
  wait_three_polls_success ⟨"RUNNING", none⟩ ⟨"RUNNING", none⟩ ⟨"DONE", none⟩ rfl rfl rfl rfl

/-- C2: if the provider reports `[RUNNING, DONE]` with error payload
`e` on the terminal response, then `wait_for_operation` performs
exactly two status queries and raises with exactly the provider's
error payload (`raise Exception(result['error'])`, the spec's
`OperationFailed`). -/
theorem wait_two_polls_failure (r1 r2 : OpResult) (e : String)
    (h1 : r1.status = "RUNNING") (h2 : r2.status = "DONE")
    (h2e : r2.error = some e) :
    waitTrace [r1, r2] = some (2, .operationFailed e) := by
  rw [waitTrace, if_neg (by rw [h1]; decide), waitTrace, if_pos h2, h2e]

/-- Witness for C2 at a concrete poll sequence. -/
theorem wait_two_polls_failure_witness :
    waitTrace [⟨"RUNNING", none⟩, ⟨"DONE", some "QUOTA_EXCEEDED"⟩]
      = some (2, .operationFailed "QUOTA_EXCEEDED") :=
  wait_two_polls_failure ⟨"RUNNING", none⟩ ⟨"DONE", some "QUOTA_EXCEEDED"⟩
    "QUOTA_EXCEEDED" rfl rfl rfl

/-- C3: over any finite run `pre` of non-terminal (`PENDING`/`RUNNING`,
i.e. non-`DONE`) responses, `wait_for_operation` neither returns nor
raises: it issues one status query per response of `pre` and continues
into whatever follows; in particular, if every reported response is
non-terminal the loop has produced no outcome after consuming them
all. -/
theorem wait_no_return_before_done (pre rest : List OpResult)
    (h : ∀ r ∈ pre, r.status ≠ "DONE") :
    waitTrace (pre ++ rest) =
      (waitTrace rest).map (fun p => (pre.length + p.1, p.2)) ∧
    waitTrace pre = none := by
  refine ⟨waitTrace_append_nonterminal pre rest h, ?_⟩
  have h2 := waitTrace_append_nonterminal pre [] h
  rw [List.append_nil] at h2
  rw [h2]
  rfl

/-- Witness for C3 at a concrete non-terminal run. -/
theorem wait_no_return_before_done_witness :
    waitTrace ([⟨"PENDING", none⟩, ⟨"RUNNING", none⟩] ++ [⟨"DONE", none⟩]) =
      (waitTrace [⟨"DONE", none⟩]).map
        (fun p => (([⟨"PENDING", none⟩, ⟨"RUNNING", none⟩] : List OpResult).length + p.1, p.2)) ∧
    waitTrace [⟨"PENDING", none⟩, ⟨"RUNNING", none⟩] = none :=
  wait_no_return_before_done [⟨"PENDING", none⟩, ⟨"RUNNING", none⟩] [⟨"DONE", none⟩]
    (by decide)

/-- C10: whenever `wait_for_operation` terminates after `n` status
queries, the response `r` observed at the terminating query has status
`DONE`, every earlier observed response does not; the loop returns `r`
itself as success exactly when `r` carries no error payload, and raises
with the error payload exactly when `r` carries one. -/
theorem wait_outcome_characterization (polls : List OpResult) (n : Nat)
    (out : WaitOutcome) (h : waitTrace polls = some (n, out)) :
    ∃ r, polls.get? (n - 1) = some r ∧ r.status = "DONE" ∧
      (∀ i, i < n - 1 → ∀ q, polls.get? i = some q → q.status ≠ "DONE") ∧
      out = (match r.error with
             | some e => .operationFailed e
             | none => .success r) := by
  induction polls generalizing n out with
  | nil => simp [waitTrace] at h
  | cons r rest ih =>
    rw [waitTrace] at h
    by_cases hr : r.status = "DONE"
    · rw [if_pos hr] at h
      refine ⟨r, ?_, hr, ?_, ?_⟩
      · cases he : r.error with
        | some e => rw [he] at h; cases h; rfl
        | none => rw [he] at h; cases h; rfl
      · cases he : r.error with
        | some e => rw [he] at h; cases h; intro i hi; omega
        | none => rw [he] at h; cases h; intro i hi; omega
      · cases he : r.error with
        | some e => rw [he] at h; cases h; rfl
        | none => rw [he] at h; cases h; rfl
    · rw [if_neg hr] at h
      cases hw : waitTrace rest with
      | none => rw [hw] at h; cases h
      | some p =>
        rw [hw] at h
        cases h
        obtain ⟨m, o⟩ := p
        obtain ⟨r', hget, hdone, hbefore, hout⟩ := ih m o hw
        have hm : 0 < m := waitTrace_pos rest m o hw
        refine ⟨r', ?_, hdone, ?_, hout⟩
        · have : m + 1 - 1 = (m - 1) + 1 := by omega
          rw [this, List.get?_cons_succ]
          exact hget
        · intro i hi q hq
          cases i with
          | zero =>
            rw [List.get?_cons_zero] at hq
            cases hq
            exact hr
          | succ j =>
            rw [List.get?_cons_succ] at hq
            exact hbefore j (by omega) q hq

/-- Witness for C10 at a concrete terminating poll sequence. -/
theorem wait_outcome_characterization_witness :
    ∃ r, ([⟨"RUNNING", none⟩, ⟨"DONE", none⟩] : List OpResult).get? (2 - 1) = some r ∧
      r.status = "DONE" ∧
      (∀ i, i < 2 - 1 → ∀ q,
        ([⟨"RUNNING", none⟩, ⟨"DONE", none⟩] : List OpResult).get? i = some q →
          q.status ≠ "DONE") ∧
      (WaitOutcome.success ⟨"DONE", none⟩) =
        (match r.error with
         | some e => .operationFailed e
         | none => .success r) :=
  wait_outcome_characterization [⟨"RUNNING", none⟩, ⟨"DONE", none⟩] 2
    (.success ⟨"DONE", none⟩) (by rfl)

/-! ## Claim theorems: lifecycle operations -/

/-- C4: for a fully-populated descriptor whose image lookup for
`(instance_project, instance_family)` resolves to `img`, `create`
submits an insert request whose boot disk's source image is
`img.selfLink`, whose boot disk has auto-delete enabled, and whose
machine type path embeds the descriptor's zone and machine type. -/
theorem create_request_body (d : ComputeResource)
    (imageLookup : YamlValue → YamlValue → Except CmError Image)
    (img : Image) (m : String)
    (_hpop : fullyPopulated d) (hm : d.machine_type = .str m)
    (hlk : imageLookup d.instance_project d.instance_family = .ok img) :
    d.create imageLookup = .ok
      { project := d.project, zone := d.zone,
        body :=
          { name := d.instance_name,
            machineType := "zones/" ++ d.zone ++ "/machineTypes/" ++ m,
            disks :=
              [{ boot := true, autoDelete := true,
                 initializeParams := { sourceImage := img.selfLink } }],
            networkInterfaces :=
              [{ network := "global/networks/default",
                 accessConfigs :=
                   [{ type := "ONE_TO_ONE_NAT", name := "External NAT" }] }],
            serviceAccounts :=
              [{ email := "default",
                 scopes :=
                   ["https://www.googleapis.com/auth/devstorage.read_write",
                    "https://www.googleapis.com/auth/logging.write"] }] } } := by
  rw [ComputeResource.create, hlk, hm]
  rfl

/-- Witness for C4 at a concrete descriptor and image lookup. -/
theorem create_request_body_witness :
    (ComputeResource.create
      { instance_family := .str "debian-12", instance_project := .str "debian-cloud",
        machine_type := .str "e2-medium", instance_name := "worker-1",
        project := "proj", zone := "zone-a" }
      (fun _ _ => .ok { selfLink := "https://img/debian-12" })) = .ok
      { project := "proj", zone := "zone-a",
        body :=
          { name := "worker-1",
            machineType := "zones/" ++ "zone-a" ++ "/machineTypes/" ++ "e2-medium",
            disks :=
              [{ boot := true, autoDelete := true,
                 initializeParams := { sourceImage := ({ selfLink := "https://img/debian-12" } : Image).selfLink } }],
            networkInterfaces :=
              [{ network := "global/networks/default",
                 accessConfigs :=
                   [{ type := "ONE_TO_ONE_NAT", name := "External NAT" }] }],
            serviceAccounts :=
              [{ email := "default",
                 scopes :=
                   ["https://www.googleapis.com/auth/devstorage.read_write",
                    "https://www.googleapis.com/auth/logging.write"] }] } } :=
  create_request_body
    { instance_family := .str "debian-12", instance_project := .str "debian-cloud",
      machine_type := .str "e2-medium", instance_name := "worker-1",
      project := "proj", zone := "zone-a" }
    (fun _ _ => .ok { selfLink := "https://img/debian-12" })
    { selfLink := "https://img/debian-12" } "e2-medium"
    (by decide) rfl rfl

/-- C7: if the image lookup for `(instance_project, instance_family)`
fails, `create` fails with that `ImageNotFound` error and produces no
insert request. -/
theorem create_image_resolution_failure (d : ComputeResource)
    (imageLookup : YamlValue → YamlValue → Except CmError Image)
    (detail : String)
    (hlk : imageLookup d.instance_project d.instance_family
      = .error (.ImageNotFound detail)) :
    d.create imageLookup = .error (.ImageNotFound detail) ∧
    ∀ call : InsertCall, d.create imageLookup ≠ .ok call := by
  have hfail : d.create imageLookup = .error (.ImageNotFound detail) := by
    rw [ComputeResource.create, hlk]
  exact ⟨hfail, fun call hok => by rw [hfail] at hok; cases hok⟩

/-- Witness for C7 at a concrete descriptor and failing lookup. -/
theorem create_image_resolution_failure_witness :
    (ComputeResource.create
      { instance_family := .str "debian-12", instance_project := .str "debian-cloud",
        machine_type := .str "e2-medium", instance_name := "worker-1",
        project := "proj", zone := "zone-a" }
      (fun _ _ => .error (.ImageNotFound "404"))) = .error (.ImageNotFound "404") ∧
    ∀ call : InsertCall,
      (ComputeResource.create
        { instance_family := .str "debian-12", instance_project := .str "debian-cloud",
          machine_type := .str "e2-medium", instance_name := "worker-1",
          project := "proj", zone := "zone-a" }
        (fun _ _ => .error (.ImageNotFound "404"))) ≠ .ok call :=
  create_image_resolution_failure
    { instance_family := .str "debian-12", instance_project := .str "debian-cloud",
      machine_type := .str "e2-medium", instance_name := "worker-1",
      project := "proj", zone := "zone-a" }
    (fun _ _ => .error (.ImageNotFound "404")) "404" rfl

/-- C9: for every descriptor, `delete` submits a deallocation request
whose project, zone and instance reference are exactly the
descriptor's; the request carries a single instance reference, so no
other instance is referenced. -/
theorem delete_references_exactly_descriptor (d : ComputeResource) :
    d.delete = { project := d.project, zone := d.zone, instance_ := d.instance_name } :=
  rfl

/-! ## Claim theorems: configuration loader -/

/-- C5: when the config file for an instance name does not exist, the
loader fails with `ConfigNotFound` naming the expected path
`configs/{instance_name}/config.yml`, and never returns a descriptor
(no partial or default fallback). -/
theorem loader_config_not_found (fs : String → Option YamlDoc)
    (instance_name project zone : String)
    (h : fs (configPath instance_name) = none) :
    mkComputeResource fs instance_name project zone
      = .error (.ConfigNotFound (configPath instance_name)) ∧
    ∀ d : ComputeResource,
      mkComputeResource fs instance_name project zone ≠ .ok d := by
  have herr : mkComputeResource fs instance_name project zone
      = .error (.ConfigNotFound (configPath instance_name)) := by
    rw [mkComputeResource, h]
  exact ⟨herr, fun d hok => by rw [herr] at hok; cases hok⟩

/-- Witness for C5 on an empty filesystem. -/
theorem loader_config_not_found_witness :
    mkComputeResource (fun _ => none) "ghost" "proj" "zone-a"
      = .error (.ConfigNotFound (configPath "ghost")) ∧
    ∀ d : ComputeResource,
      mkComputeResource (fun _ => none) "ghost" "proj" "zone-a" ≠ .ok d :=
  loader_config_not_found (fun _ => none) "ghost" "proj" "zone-a" rfl

/-- C6: when the config file exists and contains the three required
keys, the loader returns a descriptor whose three configuration fields
are exactly the file's values (and whose identity fields are the
caller's arguments). -/
theorem loader_fields_match_file (fs : String → Option YamlDoc)
    (instance_name project zone : String) (info : YamlDoc)
    (fam proj mt : YamlValue)
    (hfs : fs (configPath instance_name) = some info)
    (hfam : List.lookup "instance_family" info = some fam)
    (hproj : List.lookup "instance_project" info = some proj)
    (hmt : List.lookup "machine_type" info = some mt) :
    mkComputeResource fs instance_name project zone = .ok
      { instance_family := fam, instance_project := proj, machine_type := mt,
        instance_name := instance_name, project := project, zone := zone } := by
  simp only [mkComputeResource, hfs, dictGet, hfam, hproj, hmt, bind, Except.bind]

/-- Witness for C6 at a concrete well-formed config file. -/
theorem loader_fields_match_file_witness :
    mkComputeResource
      (fun path => if path = configPath "worker-1" then
          some [("instance_family", .str "debian-12"),
                ("instance_project", .str "debian-cloud"),
                ("machine_type", .str "e2-medium")]
        else none)
      "worker-1" "proj" "zone-a" = .ok
      { instance_family := .str "debian-12", instance_project := .str "debian-cloud",
        machine_type := .str "e2-medium", instance_name := "worker-1",
        project := "proj", zone := "zone-a" } :=
  loader_fields_match_file _ "worker-1" "proj" "zone-a"
    [("instance_family", .str "debian-12"),
     ("instance_project", .str "debian-cloud"),
     ("machine_type", .str "e2-medium")]
    (.str "debian-12") (.str "debian-cloud") (.str "e2-medium")
    (by simp) (by decide) (by decide) (by decide)

/-- A filesystem holding a config file for `worker-1` whose
`instance_family` key is explicitly mapped to YAML `null` (the file
line `instance_family:`); `yaml.safe_load` delivers `None` for it and
`info['instance_family']` raises no error. -/
def fsNullFamily : String → Option YamlDoc := fun path =>
  if path = configPath "worker-1" then
    some [("instance_family", .null),
          ("instance_project", .str "debian-cloud"),
          ("machine_type", .str "e2-medium")]
  else none

/-- Counterexample to C8 as stated: on a config file mapping
`instance_family` to `null`, the loader succeeds — so the descriptor
reaches the lifecycle operations — yet the descriptor is not fully
populated in the claim's sense (a field is null). The code checks only
key presence (`KeyError`), never nullness of the values. -/
theorem descriptor_nonnull_counterexample :
    mkComputeResource fsNullFamily "worker-1" "proj" "zone-a" = .ok
      { instance_family := .null, instance_project := .str "debian-cloud",
        machine_type := .str "e2-medium", instance_name := "worker-1",
        project := "proj", zone := "zone-a" } ∧
    ¬ fullyPopulated
      { instance_family := .null, instance_project := .str "debian-cloud",
        machine_type := .str "e2-medium", instance_name := "worker-1",
        project := "proj", zone := "zone-a" } := by
  constructor
  · rw [mkComputeResource]
    show (match fsNullFamily (configPath "worker-1") with
      | none => Except.error (CmError.ConfigNotFound (configPath "worker-1"))
      | some info => _) = _
    rfl
  · decide

/-- C8 amended: every descriptor produced by the loader (hence every
descriptor a lifecycle operation is invoked on) has all six fields
assigned — the three config fields to exactly the values the config
file holds under the three required keys (whose absence is a loading
error), and the three identity fields to the caller's arguments; the
loader does not, however, reject null values for the config keys. -/
theorem descriptor_fields_assigned (fs : String → Option YamlDoc)
    (instance_name project zone : String) (d : ComputeResource)
    (h : mkComputeResource fs instance_name project zone = .ok d) :
    ∃ info, fs (configPath instance_name) = some info ∧
      dictGet info "instance_family" = .ok d.instance_family ∧
      dictGet info "instance_project" = .ok d.instance_project ∧
      dictGet info "machine_type" = .ok d.machine_type ∧
      d.instance_name = instance_name ∧ d.project = project ∧ d.zone = zone := by
  rw [mkComputeResource] at h
  cases hfs : fs (configPath instance_name) with
  | none => rw [hfs] at h; cases h
  | some info =>
    rw [hfs] at h
    refine ⟨info, rfl, ?_⟩
    simp only [bind, Except.bind] at h
    cases hfam : dictGet info "instance_family" with
    | error e => rw [hfam] at h; cases h
    | ok fam =>
      rw [hfam] at h
      cases hproj : dictGet info "instance_project" with
      | error e => rw [hproj] at h; cases h
      | ok proj =>
        rw [hproj] at h
        cases hmt : dictGet info "machine_type" with
        | error e => rw [hmt] at h; cases h
        | ok mt =>
          rw [hmt] at h
          cases h
          exact ⟨rfl, rfl, rfl, rfl, rfl, rfl⟩

/-- Witness for the amended C8 at a concrete loaded descriptor. -/
theorem descriptor_fields_assigned_witness :
    ∃ info,
      (fun path => if path = configPath "w" then
          some [("instance_family", YamlValue.str "f"),
                ("instance_project", YamlValue.str "p"),
                ("machine_type", YamlValue.str "m")]
        else none) (configPath "w") = some info ∧
      dictGet info "instance_family" = .ok (YamlValue.str "f") ∧
      dictGet info "instance_project" = .ok (YamlValue.str "p") ∧
      dictGet info "machine_type" = .ok (YamlValue.str "m") ∧
      "w" = "w" ∧ "pr" = "pr" ∧ "z" = "z" :=
  descriptor_fields_assigned
    (fun path => if path = configPath "w" then
        some [("instance_family", YamlValue.str "f"),
              ("instance_project", YamlValue.str "p"),
              ("machine_type", YamlValue.str "m")]
      else none)
    "w" "pr" "z"
    { instance_family := .str "f", instance_project := .str "p",
      machine_type := .str "m", instance_name := "w",
      project := "pr", zone := "z" }
    rfl
